import Mathlib

/-!
Shallow embedding of the compliance-check engine of SH-SDS
(`src/sysguard.rs`, `GuardItem::check`), together with theorems settling
the frozen claims about it.

The `util::runcmd` fact collector is external to the evaluators: every
command/file it would return is an input field of the `Oracle` structure
below (`Option String`, `none` = CollectionFailure).  A check arm is then
a pure function from an `Oracle` to its fragment of the finding set,
modelled as a `List (String × String)` of (report-location key, text)
pairs in insertion order; an arm that can panic (an `unwrap` on a failed
regex capture) returns `Option (List (String × String))`, `none` standing
for the panic.

String primitives below model the Rust std functions the source uses
(`str::lines`, `str::trim`, `str::split`, `parse::<iN>`), restricted to
the ASCII fragment of Unicode whitespace/digits (all inputs appearing in
the theorems are ASCII).
-/

namespace SysGuard

/-- ASCII fragment of the whitespace class used by Rust `str::trim` and the
regex class `\s`. -/
def isWs (c : Char) : Bool :=
  c = ' ' || c = '\t' || c = '\n' || c = '\r' || c = Char.ofNat 11 || c = Char.ofNat 12

/-- Rust `str::trim` on a character list. -/
def trimL (cs : List Char) : List Char :=
  ((cs.dropWhile isWs).reverse.dropWhile isWs).reverse

/-- Rust `str::trim`. -/
def trimS (s : String) : String := String.mk (trimL s.data)

/-- Rust `str::starts_with`. -/
def startsWithS (s t : String) : Bool := t.data.isPrefixOf s.data

/-- Rust `str::ends_with`. -/
def endsWithS (s t : String) : Bool := t.data.reverse.isPrefixOf s.data.reverse

/-- Split a character list at every occurrence of `sep`
(Rust `str::split` with a single-char separator). -/
def splitChar (sep : Char) : List Char → List (List Char)
  | [] => [[]]
  | c :: cs =>
    let r := splitChar sep cs
    if c = sep then [] :: r
    else
      match r with
      | h :: t => (c :: h) :: t
      | [] => [[c]]

/-- Drop one trailing carriage return (the `\r` of a `\r\n` terminator). -/
def stripCr (cs : List Char) : List Char :=
  if cs.getLast? = some '\r' then cs.dropLast else cs

/-- Rust `str::lines`: split at `\n` (also recognising `\r\n`); a final
line terminator produces no trailing empty line. -/
def rlines (s : String) : List String :=
  let ps := splitChar '\n' s.data
  let core := (ps.dropLast.map stripCr) ++ (if ps.getLastD [] = [] then [] else [ps.getLastD []])
  core.map String.mk

/-- Substring test (Rust `str::contains` with a string pattern). -/
def containsSub : List Char → List Char → Bool
  | [], needle => needle.isEmpty
  | c :: cs, needle => needle.isPrefixOf (c :: cs) || containsSub cs needle

/-- Value of a list of ASCII digits. -/
def digitsToNat (ds : List Char) : Nat :=
  ds.foldl (fun n c => n * 10 + (c.toNat - '0'.toNat)) 0

/-- Rust `str::parse::<u32>`: optional `+` sign, one or more ASCII digits,
in range. -/
def parseU32 (cs : List Char) : Option Nat :=
  let ds := match cs with
            | '+' :: r => r
            | r => r
  if ds ≠ [] ∧ ds.all Char.isDigit then
    let n := digitsToNat ds
    if n < 4294967296 then some n else none
  else none

/-- Rust `str::parse::<usize>` (64-bit): optional `+` sign, digits, in range. -/
def parseUsize (cs : List Char) : Option Nat :=
  let ds := match cs with
            | '+' :: r => r
            | r => r
  if ds ≠ [] ∧ ds.all Char.isDigit then
    let n := digitsToNat ds
    if n < 18446744073709551616 then some n else none
  else none

/-- Rust `str::parse::<i32>`: optional sign, one or more ASCII digits,
in range. -/
def parseI32 (cs : List Char) : Option Int :=
  let (sgn, ds) : Int × List Char :=
    match cs with
    | '+' :: r => (1, r)
    | '-' :: r => (-1, r)
    | r => (1, r)
  if ds ≠ [] ∧ ds.all Char.isDigit then
    let v : Int := sgn * (digitsToNat ds : Int)
    if -2147483648 ≤ v ∧ v ≤ 2147483647 then some v else none
  else none

/-- Match a literal at the head of a list, returning the rest. -/
def stripLit : List Char → List Char → Option (List Char)
  | [], cs => some cs
  | _ :: _, [] => none
  | l :: lt, c :: ct => if c = l then stripLit lt ct else none

/-- Match `<lit>(\d+)` at the current position: the literal followed by a
maximal (greedy) nonempty digit run; returns the digits of group 1. -/
def litDigitsAt (lit cs : List Char) : Option (List Char) :=
  match stripLit lit cs with
  | some rest =>
    let ds := rest.takeWhile Char.isDigit
    if ds.isEmpty then none else some ds
  | none => none

/-- Leftmost match of `<lit>(\d+)` in a string (regex `find`/`captures`
semantics for this pattern); returns the digits of group 1. -/
def litDigitsFind (lit : List Char) : List Char → Option (List Char)
  | [] => none
  | c :: cs =>
    match litDigitsAt lit (c :: cs) with
    | some ds => some ds
    | none => litDigitsFind lit cs

/-!  Regex `([dulo]credit\s*=\s*-\d+)` (PasswdComplexity arm).
The quantified subpatterns are followed by characters outside their own
classes, so greedy matching needs no backtracking here. -/

/-- Try the credit pattern at the current position; on success return the
matched text (group 1 is the whole pattern) and the rest of the input. -/
def creditAt (cs : List Char) : Option (List Char × List Char) :=
  match cs with
  | [] => none
  | c :: rest =>
    if ['d', 'u', 'l', 'o'].contains c then
      match stripLit "credit".data rest with
      | none => none
      | some r1 =>
        let ws1 := r1.takeWhile isWs
        let r2 := r1.dropWhile isWs
        match r2 with
        | '=' :: r3 =>
          let ws2 := r3.takeWhile isWs
          let r4 := r3.dropWhile isWs
          match r4 with
          | '-' :: r5 =>
            let ds := r5.takeWhile Char.isDigit
            let r6 := r5.dropWhile Char.isDigit
            if ds.isEmpty then none
            else some (c :: ("credit".data ++ ws1 ++ '=' :: (ws2 ++ '-' :: ds)), r6)
          | _ => none
        | _ => none
    else none

/-- Successive non-overlapping leftmost matches (regex `captures_iter`);
fuel bounds the number of scan steps (each consumes at least one char). -/
def creditMatchesAux : Nat → List Char → List (List Char)
  | 0, _ => []
  | _ + 1, [] => []
  | fuel + 1, c :: cs =>
    match creditAt (c :: cs) with
    | some (m, rest) => m :: creditMatchesAux fuel rest
    | none => creditMatchesAux fuel cs

/-- All matches of `([dulo]credit\s*=\s*-\d+)` in a line. -/
def creditMatches (cs : List Char) : List (List Char) :=
  creditMatchesAux cs.length cs

/-!  Regex `^-w\s+([^ ]+)\s+-p\s+([^ ]+)$` (Audit arm, `auditctl -l`
lines).  `\s` overlaps `[^ ]` on tabs, so the quantifiers are matched
greedily with backtracking, as the regex engine does. -/

/-- `\s+` then continuation, greedy with backtracking, having already
consumed at least one whitespace char. -/
def wsPlusGo (cs : List Char) (k : List Char → Option α) : Option α :=
  match cs with
  | [] => k []
  | c :: rest =>
    if isWs c then
      match wsPlusGo rest k with
      | some v => some v
      | none => k (c :: rest)
    else k (c :: rest)

/-- `\s+` then continuation. -/
def wsPlusThen (cs : List Char) (k : List Char → Option α) : Option α :=
  match cs with
  | [] => none
  | c :: rest => if isWs c then wsPlusGo rest k else none

/-- `[^ ]+` then continuation (receiving the captured run and the rest),
greedy with backtracking, having already captured `acc`. -/
def nonSpacePlusGo (acc : List Char) (cs : List Char)
    (k : List Char → List Char → Option α) : Option α :=
  match cs with
  | [] => k acc []
  | c :: rest =>
    if c = ' ' then k acc (c :: rest)
    else
      match nonSpacePlusGo (acc ++ [c]) rest k with
      | some v => some v
      | none => k acc (c :: rest)

/-- `[^ ]+` then continuation. -/
def nonSpacePlusThen (cs : List Char) (k : List Char → List Char → Option α) :
    Option α :=
  match cs with
  | [] => none
  | c :: rest => if c = ' ' then none else nonSpacePlusGo [c] rest k

/-- Captures of `^-w\s+([^ ]+)\s+-p\s+([^ ]+)$` against a whole line:
`some (watch_file, watch_action)` on a match, `none` when the line does
not match (where the source calls `.unwrap()` and panics). -/
def auditWatchCaps (cs : List Char) : Option (List Char × List Char) :=
  match cs with
  | '-' :: 'w' :: rest =>
    wsPlusThen rest (fun r1 =>
      nonSpacePlusThen r1 (fun g1 r2 =>
        wsPlusThen r2 (fun r3 =>
          match r3 with
          | '-' :: 'p' :: r4 =>
            wsPlusThen r4 (fun r5 =>
              nonSpacePlusThen r5 (fun g2 r6 =>
                if r6 = [] then some (g1, g2) else none))
          | _ => none)))
  | _ => none

/-!  Regex `(\d{1,3}.\d{1,3}.\d{1,3}.\d{1,3}/(\d{1,2})?)` (IPTables arm;
`.` is the any-char metacharacter).  `\d{1,3}` is matched greedily with
backtracking over the candidate rests. -/

/-- Rests after consuming 3, 2, 1 digits (greedy order), keeping only the
amounts actually available. -/
def digitRests (cs : List Char) : List (List Char) :=
  match cs with
  | [] => []
  | c1 :: r1 =>
    if c1.isDigit then
      match r1 with
      | [] => [r1]
      | c2 :: r2 =>
        if c2.isDigit then
          match r2 with
          | [] => [r2, r1]
          | c3 :: r3 => if c3.isDigit then [r3, r2, r1] else [r2, r1]
        else [r1]
    else []

/-- Rest after consuming one arbitrary char (the `.` metacharacter). -/
def anyRests (cs : List Char) : List (List Char) :=
  match cs with
  | [] => []
  | _ :: r => [r]

/-- First alternative (in greedy order) on which the continuation succeeds. -/
def firstSome (l : List β) (k : β → Option α) : Option α :=
  match l with
  | [] => none
  | b :: bs =>
    match k b with
    | some v => some v
    | none => firstSome bs k

/-- Rest after the trailing `(\d{1,2})?`: greedily take up to two digits. -/
def digits2OptRest (cs : List Char) : List Char :=
  match cs with
  | [] => []
  | c1 :: r1 =>
    if c1.isDigit then
      match r1 with
      | [] => r1
      | c2 :: r2 => if c2.isDigit then r2 else r1
    else cs

/-- Try the CIDR pattern at the current position; returns the rest of the
input after the match. -/
def ipPatAt (cs : List Char) : Option (List Char) :=
  firstSome (digitRests cs) (fun r1 =>
    firstSome (anyRests r1) (fun r2 =>
      firstSome (digitRests r2) (fun r3 =>
        firstSome (anyRests r3) (fun r4 =>
          firstSome (digitRests r4) (fun r5 =>
            firstSome (anyRests r5) (fun r6 =>
              firstSome (digitRests r6) (fun r7 =>
                match r7 with
                | '/' :: r8 => some (digits2OptRest r8)
                | _ => none)))))))

/-- Leftmost match of the CIDR pattern in a line; returns the matched text
(group 1), or `none` when nothing matches (where the source unwraps and
panics). -/
def ipFind : List Char → Option (List Char)
  | [] => none
  | c :: cs =>
    match ipPatAt (c :: cs) with
    | some rest => some (List.take ((c :: cs).length - rest.length) (c :: cs))
    | none => ipFind cs

/-!  The fact collector, as seen by the evaluators.  Each `Option String`
field is the captured stdout / file contents of one `util::runcmd`
invocation (`none` = the command/file could not be read); `interfaces`
stands for `pnet::datalink::interfaces()` (per interface, the IPv4
addresses already rendered by `ip().to_string()`); `bindOk p` is whether
`TcpListener::bind(("127.0.0.1", p))` succeeds; `serviceStatus name` is
the output of `service <name> status`. -/

@[ext]
structure Oracle where
  issue : Option String
  interfaces : List (List String)
  umaskOut : Option String
  passwd : Option String
  loginDefs : Option String
  systemAuth : Option String
  profile : Option String
  bindOk : Nat → Bool
  chkconfig : Option String
  sshdConfig : Option String
  logrotate : Option String
  serviceStatus : String → Option String
  auditctl : Option String
  iptables : Option String

/-- An oracle on which every collection fails and every bind fails. -/
def oracleNone : Oracle :=
  { issue := none, interfaces := [], umaskOut := none, passwd := none,
    loginDefs := none, systemAuth := none, profile := none,
    bindOk := fun _ => false, chkconfig := none, sshdConfig := none,
    logrotate := none, serviceStatus := fun _ => none, auditctl := none,
    iptables := none }

/-- `Mark::as_str` composed with `Mark::from`. -/
def markStr (b : Bool) : String := if b then "✓" else "✗"

/-!  GuardItem::OS -/

/-- The OS arm: `cat /etc/issue`, trim, flatten `\r`/`\n` to spaces. -/
def osCheck (o : Oracle) : List (String × String) :=
  [("A4", "操作系统"),
   ("B4", match o.issue with
          | some r => String.mk ((trimS r).data.map
              (fun c => if c = '\r' then ' ' else if c = '\n' then ' ' else c))
          | none => "")]

/-!  GuardItem::IP -/

/-- The IP arm: IPv4 addresses of every interface, trimmed, with
`127.0.0.1` excluded, joined by `;` (extending with an empty per-interface
list is a no-op, so the guard `ips.len() > 0` drops out). -/
def ipCheck (o : Oracle) : List (String × String) :=
  [("A5", "设备 IP"),
   ("B5", String.intercalate ";"
     ((o.interfaces.map (fun ips =>
        (ips.map trimS).filter (fun x => x != "127.0.0.1"))).foldl (· ++ ·) []))]

/-!  GuardItem::UserMgmt -/

/-- Umask mark: output of `bash -i -c umask` trims to `0022`. -/
def umaskMark (u : Option String) : Bool :=
  match u with
  | some r => trimS r == "0022"
  | none => false

/-- `/etc/passwd` lines surviving the filter: trimmed line does not end in
`/nologin` or `/false` and does not start with `#`. -/
def survivors (r : String) : List String :=
  (rlines (trimS r)).filter (fun x =>
    !(endsWithS (trimS x) "/nologin") && !(endsWithS (trimS x) "/false")
      && !(startsWithS (trimS x) "#"))

/-- B9 mark: fails iff any (unfiltered) line of the trimmed `/etc/passwd`
trims to start with `root`; collection failure is a fail. -/
def b9Mark (p : Option String) : Bool :=
  match p with
  | some r => !((rlines (trimS r)).any (fun x => startsWithS (trimS x) "root"))
  | none => false

/-- Rendered B8 text. -/
def b8Render (m : Bool) : String :=
  "[  ]应删除或锁定过期帐户、无用帐户和隐藏账号  //Expired accounts, useless accounts, and hidden accounts should be deleted or locked\n["
    ++ markStr m
    ++ "]每个用户是否按要求开展权限设置  //Has each user carried out permission settings as required\n"

/-- Rendered B9 text. -/
def b9Render (m : Bool) : String :=
  "[" ++ markStr m ++ "]不能使用默认用户名，例如：root、superadmin、administrator等"

/-- The UserMgmt arm. -/
def userMgmtCheck (o : Oracle) : List (String × String) :=
  [("A8", "用户管理"),
   ("B8", b8Render (umaskMark o.umaskOut)),
   ("C9", match o.passwd with
          | some r => String.intercalate "\n" (survivors r)
          | none => ""),
   ("B9", b9Render (b9Mark o.passwd))]

/-!  GuardItem::PasswdComplexity -/

/-- The `get_value` closure: split the line on tabs, keep tokens that do
not trim to empty, parse the second one as `u32`. -/
def getValueTab (line : String) : Option Nat :=
  match ((splitChar '\t' line.data).filter (fun x => (trimL x).length > 0))[1]? with
  | some v => parseU32 v
  | none => none

/-- Scan of `/etc/login.defs`: `(minimum_size, update_cycle)` starting
from the defaults `(0, 99999)`, last parseable assignment winning. -/
def loginDefsScan (r : String) : Nat × Nat :=
  (rlines (trimS r)).foldl
    (fun acc line =>
      let acc1 := if startsWithS line "PASS_MIN_LEN" then
          match getValueTab line with
          | some v => (v, acc.2)
          | none => acc
        else acc
      if startsWithS line "PASS_MAX_DAYS" then
        match getValueTab line with
        | some v => (acc1.1, v)
        | none => acc1
      else acc1)
    (0, 99999)

/-- HashMap insert on an association list: overwrite the key, append new. -/
def hmInsert (m : List (String × Int)) (k : String) (v : Int) :
    List (String × Int) :=
  (m.filter (fun p => p.1 != k)) ++ [(k, v)]

/-- HashMap lookup. -/
def hmGet (m : List (String × Int)) (k : String) : Option Int :=
  ((m.filter (fun p => p.1 == k)).head?).map (fun p => p.2)

/-- Credits extracted from the first line of the trimmed
`/etc/pam.d/system-auth` whose trim starts with
`password requisite pam_cracklib`: every regex match is split on `=`,
the head is the key, the second part parsed as `i32` (defaulting to 0). -/
def credits (r : String) : List (String × Int) :=
  let creditLines := (rlines (trimS r)).filter (fun x =>
    startsWithS (trimS x) "password requisite pam_cracklib")
  match creditLines.head? with
  | none => []
  | some cl =>
    (creditMatches cl.data).foldl
      (fun m cap =>
        let kv := splitChar '=' cap
        match kv[0]? with
        | none => m
        | some name =>
          let value : Int := match kv[1]? with
            | some v => match parseI32 v with
                        | some n => n
                        | none => 0
            | none => 0
          hmInsert m (String.mk name) value)
      []

/-- The `cond` closure: credit value with default 0. -/
def creditCond (r : String) (k : String) : Int := (hmGet (credits r) k).getD 0

/-- `is_strong_combination` as computed from `/etc/pam.d/system-auth`. -/
def strongCombination (r : String) : Bool :=
  decide (creditCond r "ucredit" ≤ -2) && decide (creditCond r "lcredit" ≤ -1)
    && decide (creditCond r "dcredit" ≤ -4) && decide (creditCond r "ocredit" ≤ -1)

/-- The `Passwd` struct after both scans:
`(minimum_size, is_strong_combination, update_cycle)`. -/
def passwdOf (o : Oracle) : Nat × Bool × Nat :=
  let lv := match o.loginDefs with
            | some r => loginDefsScan r
            | none => (0, 99999)
  let strong := match o.systemAuth with
                | some r => strongCombination r
                | none => false
  (lv.1, strong, lv.2)

/-- Rendered B10 text. -/
def b10Render (lenOk strong cycleOk : Bool) : String :=
  "[" ++ markStr lenOk ++ "]密码长度不小于8位  //Password length not less than 8 digits\n["
    ++ markStr strong ++ "]采取字母、数字和特殊字符的混合组合  //Adopting a mixed combination of letters, numbers, and special characters\n[  ]密码与用户名不相同  //Password and username are not the same\n["
    ++ markStr cycleOk ++ "]密码更新周期180天  //Password update cycle 180 days\n"

/-- The PasswdComplexity arm. -/
def passwdComplexityCheck (o : Oracle) : List (String × String) :=
  let p := passwdOf o
  [("A10", "密码复杂度配置"),
   ("B10", b10Render (decide (p.1 ≥ 8)) p.2.1 (decide (p.2.2 ≤ 180)))]

/-!  GuardItem::OperationTimeout -/

/-- The TMOUT loop: iterate the lines of `/etc/profile` in reverse and,
on every line whose trim has a `TMOUT=(\d+)` match, overwrite `tmout`
with the digits of the match (the matched text split on `=`, part 1). -/
def tmoutResolve (r : String) : Option String :=
  ((rlines r).reverse).foldl
    (fun acc line =>
      match litDigitsFind "TMOUT=".data (trimL line.data) with
      | some ds => some (String.mk ds)
      | none => acc)
    none

/-- B11 mark: the resolved TMOUT value parses as `i32` and is `≤ 600`. -/
def b11Mark (profile : Option String) : Bool :=
  match profile with
  | some r =>
    match tmoutResolve r with
    | some t =>
      match parseI32 t.data with
      | some v => decide (v ≤ 600)
      | none => false
    | none => false
  | none => false

/-- The OperationTimeout arm. -/
def operationTimeoutCheck (o : Oracle) : List (String × String) :=
  [("A11", "登录终端的操作超时锁定"),
   ("B11", "[" ++ markStr (b11Mark o.profile) ++ "]设置操作超时为小于或等于10分钟")]

/-!  GuardItem::Port -/

/-- The probed TCP ports. -/
def tcpPortList : List Nat := [135, 137, 138, 139, 445, 3389]

/-- Keys of the `mp` HashMap: ports of the list on which
`TcpListener::bind` succeeded (`is_tcp_port_opened`). -/
def openPorts (bindOk : Nat → Bool) : List Nat := tcpPortList.filter bindOk

/-- Per-port mark: `Mark::from(!mp.contains_key(&port))`. -/
def portMark (bindOk : Nat → Bool) (port : Nat) : Bool :=
  !((openPorts bindOk).contains port)

/-- Rendered B14 text. -/
def b14Render (bindOk : Nat → Bool) : String :=
  "[" ++ markStr (portMark bindOk 135) ++ "]关闭135  //shutdown port 135\n["
    ++ markStr (portMark bindOk 137) ++ "]关闭137  //shutdown port 137\n["
    ++ markStr (portMark bindOk 138) ++ "]关闭138  //shutdown port 138\n["
    ++ markStr (portMark bindOk 139) ++ "]关闭139  //shutdown port 139\n["
    ++ markStr (portMark bindOk 445) ++ "]关闭445  //shutdown port 445\n["
    ++ markStr (portMark bindOk 3389) ++ "]关闭3389  //shutdown port 3389\n"

/-- The Port arm. -/
def portCheck (o : Oracle) : List (String × String) :=
  [("A14", "高危端口封闭"), ("B14", b14Render o.bindOk)]

/-!  GuardItem::Service -/

/-- Tab-separated fields of a `chkconfig --list` line that do not trim to
empty. -/
def tabItems (line : String) : List (List Char) :=
  (splitChar '\t' line.data).filter (fun x => (trimL x).length > 0)

/-- The `parse` closure: exactly 8 fields or `None`; field 0 is the
service name; each remaining field splits on `:` and its part 1 equal to
`关闭` means that runlevel is off (a field without part 1 leaves the
initial `true`). -/
def parseService (line : String) : Option (String × List Bool) :=
  if (tabItems line).length = 8 then
    some (String.mk ((tabItems line).headD []),
      ((tabItems line).drop 1).map (fun item =>
        match (splitChar ':' item)[1]? with
        | some status => !(String.mk status == "关闭")
        | none => true))
  else none

/-- `is_service_enabeld`: runlevels at indices 2–5 all on. -/
def isServiceEnabled (sw : List Bool) : Bool :=
  sw.getD 2 false && sw.getD 3 false && sw.getD 4 false && sw.getD 5 false

/-- `service_name_main_list`. -/
def serviceNameMainList : List String :=
  ["sendmail", "postfix", "ftp", "vsftpd", "telnet", "rlogin", "netbios",
   "dhcpd", "smb", "samba", "snmpd", "xdmcp", "vncserver"]

/-- `service_name_extra_list`. -/
def serviceNameExtraList : List String :=
  ["bluetooth", "rwho", "sh", "rsh", "rexec", "sendmail", "tftp", "http",
   "nfs", "smtp"]

/-- HashMap key-set insert. -/
def insertKey (l : List String) (k : String) : List String :=
  if l.contains k then l else l ++ [k]

/-- Effect of one `chkconfig --list` line on the `mp` flag set. -/
def serviceStep (mp : List String) (line : String) : List String :=
  match parseService line with
  | none => mp
  | some (name, sw) =>
    let en := isServiceEnabled sw
    let mp1 := if serviceNameMainList.contains name && en then insertKey mp name
               else mp
    if serviceNameExtraList.contains name && en then
      insertKey (insertKey mp1 "minimum_service") name
    else mp1

/-- `mp` after all lines. -/
def serviceMpOfLines (ls : List String) : List String := ls.foldl serviceStep []

/-- Rendered B15 text. -/
def b15Render (mp : List String) : String :=
  "[" ++ markStr (!(mp.contains "sendmail" || mp.contains "postfix")) ++ "]E-Mail\n["
    ++ markStr (!(mp.contains "ftp" || mp.contains "vsftpd")) ++ "]FTP\n["
    ++ markStr (!(mp.contains "telnet")) ++ "]telnet\n["
    ++ markStr (!(mp.contains "rlogin")) ++ "]rlogin\n["
    ++ markStr (!(mp.contains "netbios")) ++ "]NetBIOS\n["
    ++ markStr (!(mp.contains "dhcpd")) ++ "]DHCP\n["
    ++ markStr (!(mp.contains "smb" || mp.contains "samba")) ++ "]SMB\n["
    ++ markStr (!(mp.contains "snmpd")) ++ "]SNMPV3 and below versions\n["
    ++ markStr (!(mp.contains "xdmcp" || mp.contains "vncserver")) ++ "]Remote desktop\n["
    ++ markStr (!(mp.contains "minimum_service")) ++ "]Close other non essential services\n"

/-- The Service cell as a function of the `chkconfig --list` lines. -/
def serviceCellOfLines (ls : List String) : List (String × String) :=
  let mp := serviceMpOfLines ls
  let extraOpen := serviceNameExtraList.filter (fun n => mp.contains n)
  [("A15", "关闭服务"),
   ("B15", b15Render mp),
   ("C15", if extraOpen.length > 0 then
             "以下服务未关闭：" ++ String.intercalate "、" extraOpen
           else "")]

/-- The Service arm (a failed `chkconfig --list` leaves `mp` empty). -/
def serviceCheck (o : Oracle) : List (String × String) :=
  serviceCellOfLines (match o.chkconfig with
                      | some r => rlines r
                      | none => [])

/-!  GuardItem::Audit -/

/-- Scan of `/etc/ssh/sshd_config`:
`(not_default_ssh_port, ssh_syslog_enabled)`. -/
def sshdFlags (r : String) : Bool × Bool :=
  (rlines r).foldl
    (fun acc line =>
      let l := trimS line
      let acc1 := if startsWithS l "Port" then
          match ((splitChar ' ' l.data).filter (fun x => (trimL x).length > 0))[1]? with
          | some p => if p ≠ "22".data then (true, acc.2) else acc
          | none => acc
        else acc
      if startsWithS (trimS l) "SyslogFacility AUTH" then (acc1.1, true) else acc1)
    (false, false)

/-- Second space-separated token of a line, parsed as `i32`. -/
def rotateValue (line : String) : Option Int :=
  match (splitChar ' ' line.data)[1]? with
  | some c => parseI32 c
  | none => none

/-- `logrotate_cycle_passed`: the scan breaks at the first line starting
with `rotate ` whether or not its value parses; pass iff that line's
value parses and is `≥ 54`. -/
def logrotatePassOfLines (ls : List String) : Bool :=
  match ls.find? (fun l => startsWithS l "rotate ") with
  | some line =>
    match rotateValue line with
    | some v => decide (v ≥ 54)
    | none => false
  | none => false

/-- `logrotate_cycle_passed` from the file contents. -/
def logrotateCyclePass (r : String) : Bool := logrotatePassOfLines (rlines r)

/-- Whether `service <name> status` reported the host-locale running
indicator. -/
def statusRunning (o : Oracle) (name : String) : Bool :=
  match o.serviceStatus name with
  | some r => containsSub r.data "正在运行".data
  | none => false

/-- `audit_file_list`. -/
def auditFileList : List String :=
  ["/etc/group", "/etc/passwd", "/etc/ssh/sshd_config", "/etc/shadow",
   "/etc/sudoers", "/var/log/lastlog", "/etc/profile", "/etc/sysctl.conf"]

/-- Fold over the `auditctl -l` lines accumulating the covered watch
files; a trimmed line starting with `-w` that fails the watch regex makes
the source panic (`captures(..).unwrap()`), modelled as `none`. -/
def auditCoveredGo (acc : List String) : List String → Option (List String)
  | [] => some acc
  | l :: ls =>
    let lt := trimS l
    if startsWithS lt "-w" then
      match auditWatchCaps lt.data with
      | none => none
      | some (f, a) =>
        let fs := String.mk f
        let acc1 := if auditFileList.contains fs
                       && (a.contains 'w' || a.contains 'a') then
            insertKey acc fs
          else acc
        auditCoveredGo acc1 ls
    else auditCoveredGo acc ls

/-- `audit_file_passed` (the flag-with-break loop is `List.all`), or
`none` when the parse panicked; a failed `auditctl -l` leaves the flag
unset, i.e. `false`. -/
def auditFilePassedOf (auditctl : Option String) : Option Bool :=
  match auditctl with
  | none => some false
  | some r =>
    (auditCoveredGo [] (rlines r)).map
      (fun cov => auditFileList.all (fun f => cov.contains f))

/-- Rendered B19 text. -/
def b19Render (rsyslogOn auditdOn sshSyslog logrotateOk auditFilesOk sshdOn
    notDefaultPort : Bool) : String :=
  "[" ++ markStr rsyslogOn ++ "]开启系统日志进程(syslog)  //Run the system log process (syslog)\n["
    ++ markStr auditdOn ++ "]开启审计进程(auditd)  //Run the audit process (auditd)\n["
    ++ markStr sshSyslog ++ "]开启SSH日志审计  //Enable SSH log auditing\n["
    ++ markStr logrotateOk ++ "]审计内容保存6个月  //Keep audit content for 6 months\n[  ]将审计内容发送到其他日志审计设备存储  //Send audit content to other log audit devices for storage\n["
    ++ markStr auditFilesOk ++ "]至少包括：用户的添加和删除、审计功能的启动和关闭、审计策略的调整、权限变更、系统资源的异常使用、重要的系统操作（如用户登录、退出）等\n//At least including: adding and deleting users, starting and closing audit functions, adjusting audit policies, changing permissions, abnormal use of system resources, important system operations (such as user login and logout), etc\n["
    ++ markStr sshdOn ++ "]启用SSH  //Enable SSH\n["
    ++ markStr notDefaultPort ++ "]修改SSH默认端口  //Modify SSH default port\n"

/-- The Audit arm; `none` models the panic on an unparseable `-w` line of
`auditctl -l` (the cell, A19 included, is then never returned). -/
def auditCheck (o : Oracle) : Option (List (String × String)) :=
  match auditFilePassedOf o.auditctl with
  | none => none
  | some afp =>
    let sf := match o.sshdConfig with
              | some r => sshdFlags r
              | none => (false, false)
    let lr := match o.logrotate with
              | some r => logrotateCyclePass r
              | none => false
    some [("A19", "远程访问/系统审计/审计内容"),
          ("B19", b19Render (statusRunning o "rsyslog") (statusRunning o "auditd")
            sf.2 lr afp (statusRunning o "sshd") sf.1)]

/-!  GuardItem::IPTables -/

/-- Fold over the `/etc/sysconfig/iptables` lines collecting the CIDR
token of every line starting with `-A whitelist`; such a line with no
match of the CIDR regex makes the source panic
(`captures(..).unwrap()`), modelled as `none`. -/
def iptablesGo (acc : List String) : List String → Option (List String)
  | [] => some acc
  | l :: ls =>
    if startsWithS l "-A whitelist" then
      match ipFind l.data with
      | none => none
      | some cap => iptablesGo (acc ++ [String.mk cap]) ls
    else iptablesGo acc ls

/-- The collected allow-list, joined with `;`. -/
def iptablesListOf (r : String) : Option String :=
  (iptablesGo [] (rlines r)).map (fun l => String.intercalate ";" l)

/-- The IPTables arm; `none` models the panic. -/
def iptablesCheck (o : Oracle) : Option (List (String × String)) :=
  match o.iptables with
  | none => some [("A21", "设定终端接入方式、网络地址范围"), ("C21", "")]
  | some r =>
    (iptablesListOf r).map (fun s =>
      [("A21", "设定终端接入方式、网络地址范围"), ("C21", s)])

/-!  GuardItem::CommandHistory -/

/-- The `parse_size` closure for `HISTSIZE=(\d+)` / `HISTFILESIZE=(\d+)`:
group 1 of the leftmost match, parsed as `usize`. -/
def parseSizeHist (lit : String) (line : String) : Option Nat :=
  match litDigitsFind lit.data line.data with
  | some ds => parseUsize ds
  | none => none

/-- Scan of `/etc/profile`: on every line not trimming to start with `#`,
a successful parse overwrites the stored HISTSIZE / HISTFILESIZE. -/
def histScan (r : String) : Option Nat × Option Nat :=
  (rlines r).foldl
    (fun acc line =>
      if !(startsWithS (trimS line) "#") then
        let acc1 := match parseSizeHist "HISTSIZE=" line with
                    | some v => (some v, acc.2)
                    | none => acc
        match parseSizeHist "HISTFILESIZE=" line with
        | some v => (acc1.1, some v)
        | none => acc1
      else acc)
    (none, none)

/-- B25 mark: both values (default 50000) are `≤ 5`; an unreadable
`/etc/profile` leaves both at the default. -/
def b25Mark (profile : Option String) : Bool :=
  let hp := match profile with
            | some r => histScan r
            | none => (none, none)
  decide (hp.1.getD 50000 ≤ 5) && decide (hp.2.getD 50000 ≤ 5)

/-- The CommandHistory arm. -/
def commandHistoryCheck (o : Oracle) : List (String × String) :=
  [("A25", "his命令"),
   ("B25", "[" ++ markStr (b25Mark o.profile) ++ "]删除系统his命令")]

/-!  The full scan (the catalogue order of `saveas` in `src/main.rs`);
a panic in the Audit or IPTables arm aborts the scan. -/

/-- FindingSet of one full scan, or `none` when an arm panicked. -/
def fullScan (o : Oracle) : Option (List (String × String)) :=
  (auditCheck o).bind (fun au =>
    (iptablesCheck o).map (fun ip =>
      osCheck o ++ ipCheck o ++ userMgmtCheck o ++ passwdComplexityCheck o
        ++ operationTimeoutCheck o ++ portCheck o ++ au ++ ip
        ++ serviceCheck o ++ commandHistoryCheck o))

/-!  Claim-side (spec-worded) definitions, for the refinement claims that
the code falsifies. -/

/-- Modelled from the spec wording of claim C3: the B9 mark passes iff no
line *surviving the shell-field filter* starts with `root`. -/
def claimB9Pass (r : String) : Bool :=
  !((survivors r).any (fun x => startsWithS (trimS x) "root"))

/-- Modelled from the spec wording of claim C8: the mark is decided by
the first `rotate <N>` directive, i.e. the first line starting with
`rotate ` whose second token parses as a number; pass iff that `N ≥ 54`. -/
def claimLogrotatePass (r : String) : Bool :=
  match (rlines r).find? (fun l =>
      startsWithS l "rotate " && (rotateValue l).isSome) with
  | some line =>
    match rotateValue line with
    | some v => decide (v ≥ 54)
    | none => false
  | none => false

/-!  Theorems settling the claims. -/

/-- C1: the claim says the OperationTimeout resolution is
last-assignment-wins (for `TMOUT=900` followed by `TMOUT=300` the
resolved value is 300 and B11 passes).  The code iterates the lines in
reverse *without breaking*, so the overwrite in the loop makes the first
line of the file win: on that profile the resolved value is `900` and the
B11 mark is fail; a profile resolving to 300 would indeed pass. -/
theorem c1_tmout_first_line_wins :
    tmoutResolve "TMOUT=900\nTMOUT=300" = some "900"
      ∧ b11Mark (some "TMOUT=900\nTMOUT=300") = false
      ∧ b11Mark (some "TMOUT=300") = true := by
  refine ⟨by decide, by decide, by decide⟩

/-- C2: the claim says a successful loopback bind (port free) yields a
pass mark and a failed bind yields fail.  The code marks
`!mp.contains_key(port)` where `mp` records the ports whose bind
*succeeded*, so the marks are inverted: with every bind succeeding all
six B14 marks are fail, and with every bind failing they are all pass
(shown here for the whole probed list, 3389 included). -/
theorem c2_port_mark_inverted :
    tcpPortList.map (portMark (fun _ => true)) = [false, false, false, false, false, false]
      ∧ tcpPortList.map (portMark (fun _ => false)) = [true, true, true, true, true, true] := by
  refine ⟨by decide, by decide⟩

/-- C3 (counterexample): on a `/etc/passwd` consisting of the single line
`root:x:0:0:root:/root:/sbin/nologin`, the claim's reading (only
filter-surviving lines can fail B9) gives a pass, but the code's B9 mark
is fail, because the code scans the unfiltered lines. -/
theorem c3_counterexample :
    claimB9Pass "root:x:0:0:root:/root:/sbin/nologin" = true
      ∧ b9Mark (some "root:x:0:0:root:/root:/sbin/nologin") = false := by
  refine ⟨by decide, by decide⟩

/-- C3 (amended): the B9 mark fails iff some line of the trimmed
`/etc/passwd` trims to start with `root`, with no shell-field filtering
applied (so a `root` line with a `/nologin` shell still fails it); a
collection failure also fails. -/
theorem c3_b9_ignores_shell_filter :
    (∀ r : String, b9Mark (some r)
        = !((rlines (trimS r)).any (fun x => startsWithS (trimS x) "root")))
      ∧ b9Mark none = false
      ∧ b9Mark (some "daemon:x:1:1::/sbin:/bin/bash\nroot:x:0:0:root:/root:/bin/bash") = false
      ∧ b9Mark (some "daemon:x:1:1::/sbin:/bin/bash") = true := by
  refine ⟨fun r => rfl, by decide, by decide, by decide⟩

/-- C4: the claim says evaluation never aborts on a parse mismatch.  The
Audit arm panics (`captures(..).unwrap()`) on the `auditctl -l` line
`-w /etc/passwd` (a `-w` line with no `-p` part), the IPTables arm panics
on `-A whitelist -j DROP` (no CIDR token), and the panic aborts the whole
scan. -/
theorem c4_parse_mismatch_panics :
    auditCoveredGo [] ["-w /etc/passwd"] = none
      ∧ auditCheck { oracleNone with auditctl := some "-w /etc/passwd" } = none
      ∧ iptablesGo [] ["-A whitelist -j DROP"] = none
      ∧ iptablesCheck { oracleNone with iptables := some "-A whitelist -j DROP" } = none
      ∧ fullScan { oracleNone with auditctl := some "-w /etc/passwd" } = none := by
  refine ⟨by decide, by rfl, by decide, by rfl, by rfl⟩

/-- C5: the claim says every check populates exactly its declared key set
for every combination of fact availability.  All arms but Audit and
IPTables do, unconditionally; Audit and IPTables populate exactly their
keys whenever they return at all — but an available `auditctl -l` fact
containing `-w /etc/shadow` makes the Audit arm panic and populate
nothing, violating the claim. -/
theorem c5_key_population :
    auditCheck { oracleNone with auditctl := some "-w /etc/shadow" } = none
      ∧ (∀ o : Oracle, (osCheck o).map Prod.fst = ["A4", "B4"])
      ∧ (∀ o : Oracle, (ipCheck o).map Prod.fst = ["A5", "B5"])
      ∧ (∀ o : Oracle, (userMgmtCheck o).map Prod.fst = ["A8", "B8", "C9", "B9"])
      ∧ (∀ o : Oracle, (passwdComplexityCheck o).map Prod.fst = ["A10", "B10"])
      ∧ (∀ o : Oracle, (operationTimeoutCheck o).map Prod.fst = ["A11", "B11"])
      ∧ (∀ o : Oracle, (portCheck o).map Prod.fst = ["A14", "B14"])
      ∧ (∀ o : Oracle, (serviceCheck o).map Prod.fst = ["A15", "B15", "C15"])
      ∧ (∀ o : Oracle, (commandHistoryCheck o).map Prod.fst = ["A25", "B25"])
      ∧ (∀ (o : Oracle) (res : List (String × String)),
          auditCheck o = some res → res.map Prod.fst = ["A19", "B19"])
      ∧ (∀ (o : Oracle) (res : List (String × String)),
          iptablesCheck o = some res → res.map Prod.fst = ["A21", "C21"]) := by
  refine ⟨by rfl, fun o => rfl, fun o => rfl, fun o => rfl, fun o => rfl,
    fun o => rfl, fun o => rfl, fun o => rfl, fun o => rfl, ?_, ?_⟩
  · intro o res h
    unfold auditCheck at h
    cases hafp : auditFilePassedOf o.auditctl with
    | none => rw [hafp] at h; exact absurd h (by simp)
    | some afp =>
      rw [hafp] at h
      have h2 := Option.some.inj h
      subst h2
      rfl
  · intro o res h
    unfold iptablesCheck at h
    cases hio : o.iptables with
    | none =>
      rw [hio] at h
      have h2 := Option.some.inj h
      subst h2
      rfl
    | some r =>
      rw [hio] at h
      have h3 : Option.map (fun s => [("A21", "设定终端接入方式、网络地址范围"), ("C21", s)])
          (iptablesListOf r) = some res := h
      cases hl : iptablesListOf r with
      | none => rw [hl] at h3; simp at h3
      | some s =>
        rw [hl] at h3
        simp only [Option.map_some'] at h3
        have h2 := Option.some.inj h3
        subst h2
        rfl

/-- C5 (witness): on an oracle on which every collection fails, the Audit
and IPTables arms do return, and their fragments carry exactly their
declared keys. -/
theorem c5_key_population_witness :
    ((auditCheck oracleNone).getD []).map Prod.fst = ["A19", "B19"]
      ∧ ((iptablesCheck oracleNone).getD []).map Prod.fst = ["A21", "C21"] :=
  ⟨c5_key_population.2.2.2.2.2.2.2.2.2.1 oracleNone
      ((auditCheck oracleNone).getD []) rfl,
   c5_key_population.2.2.2.2.2.2.2.2.2.2 oracleNone
      ((iptablesCheck oracleNone).getD []) rfl⟩

/-- C6: the B10 strong-combination mark holds iff the credits extracted
from the first `password requisite pam_cracklib` line satisfy
`ucredit ≤ -2 ∧ lcredit ≤ -1 ∧ dcredit ≤ -4 ∧ ocredit ≤ -1`, an absent
credit counting as 0 (which fails the test); the spec's two example
credit sets evaluate as claimed, and the mark fed into B10 is exactly
`strongCombination`. -/
theorem c6_strong_combination :
    (∀ r : String, strongCombination r = true ↔
        (creditCond r "ucredit" ≤ -2 ∧ creditCond r "lcredit" ≤ -1
          ∧ creditCond r "dcredit" ≤ -4 ∧ creditCond r "ocredit" ≤ -1))
      ∧ (∀ r k : String,
          k ∈ (["ucredit", "lcredit", "dcredit", "ocredit"] : List String) →
          hmGet (credits r) k = none → strongCombination r = false)
      ∧ strongCombination "password requisite pam_cracklib.so minlen=8 ucredit=-2 lcredit=-1 dcredit=-4 ocredit=-1" = true
      ∧ strongCombination "password requisite pam_cracklib.so minlen=8 ucredit=-1 lcredit=-1 dcredit=-4 ocredit=-1" = false
      ∧ (∀ r : String,
          (passwdOf { oracleNone with systemAuth := some r }).2.1 = strongCombination r) := by
  refine ⟨?_, ?_, by decide, by decide, fun r => rfl⟩
  · intro r
    simp [strongCombination, and_assoc]
  · intro r k hk hnone
    simp only [List.mem_cons, List.not_mem_nil, or_false] at hk
    rcases hk with rfl | rfl | rfl | rfl <;>
      simp [strongCombination, creditCond, hnone]

/-- C6 (witness): a cracklib line with no `ucredit` at all fails the
strong-combination test, applying the absent-credit part of the theorem. -/
theorem c6_strong_combination_witness :
    strongCombination "password requisite pam_cracklib.so lcredit=-1 dcredit=-4 ocredit=-1" = false :=
  c6_strong_combination.2.1
    "password requisite pam_cracklib.so lcredit=-1 dcredit=-4 ocredit=-1"
    "ucredit" (by decide) (by decide)

/-- C7: HISTSIZE / HISTFILESIZE are parsed from the non-comment lines of
`/etc/profile`, default to 50000 when absent, and B25 passes iff both
resolved values are `≤ 5` — so an absent value (default 50000) fails the
mark; concrete profiles behave as claimed, comment lines being ignored. -/
theorem c7_command_history :
    (∀ r : String, b25Mark (some r)
        = (decide ((histScan r).1.getD 50000 ≤ 5)
            && decide ((histScan r).2.getD 50000 ≤ 5)))
      ∧ (∀ r : String, (histScan r).1 = none → b25Mark (some r) = false)
      ∧ (∀ r : String, (histScan r).2 = none → b25Mark (some r) = false)
      ∧ histScan "export HISTSIZE=3\nexport HISTFILESIZE=4" = (some 3, some 4)
      ∧ b25Mark (some "export HISTSIZE=3\nexport HISTFILESIZE=4") = true
      ∧ b25Mark (some "export HISTSIZE=3") = false
      ∧ histScan "#HISTSIZE=2\nHISTSIZE=4\nHISTFILESIZE=4" = (some 4, some 4) := by
  refine ⟨fun r => rfl, ?_, ?_, by decide, by decide, by decide, by decide⟩
  · intro r h
    simp [b25Mark, h]
  · intro r h
    simp [b25Mark, h]

/-- C7 (witness): an empty profile resolves neither value, and the B25
mark fails, by the absent-value part of the theorem. -/
theorem c7_command_history_witness : b25Mark (some "") = false :=
  c7_command_history.2.1 "" rfl

/-- C8 (counterexample): on a logrotate configuration
`rotate weekly` followed by `rotate 60`, the first `rotate <N>` directive
in the claim's sense is `rotate 60` and the claim gives a pass, but the
code's scan breaks at `rotate weekly` (whose value does not parse) and
the mark is fail. -/
theorem c8_counterexample :
    claimLogrotatePass "rotate weekly\nrotate 60" = true
      ∧ logrotateCyclePass "rotate weekly\nrotate 60" = false := by
  refine ⟨by decide, by decide⟩

/-- C8 (amended): the mark is decided by the first line starting with
`rotate ` — whether or not its second token parses as a number — passing
iff that token parses as an `i32 ≥ 54`; lines after that first
`rotate `-prefixed line never affect the mark. -/
theorem c8_first_rotate_line_decides :
    (∀ (ls : List String) (l : String) (post : List String),
        (∀ x ∈ ls, startsWithS x "rotate " = false) →
        startsWithS l "rotate " = true →
        logrotatePassOfLines (ls ++ l :: post) = logrotatePassOfLines (ls ++ [l]))
      ∧ (∀ r : String, logrotateCyclePass r = logrotatePassOfLines (rlines r))
      ∧ logrotatePassOfLines ["rotate 60"] = true
      ∧ logrotatePassOfLines ["rotate 53"] = false
      ∧ logrotatePassOfLines ["# comment", "rotate 54", "rotate 1"] = true := by
  refine ⟨?_, fun r => rfl, by decide, by decide, by decide⟩
  intro ls l post hls hl
  have hnone : ls.find? (fun x => startsWithS x "rotate ") = none := by
    rw [List.find?_eq_none]
    intro x hx
    simp [hls x hx]
  unfold logrotatePassOfLines
  rw [List.find?_append, List.find?_append, hnone]
  simp [List.find?, hl]

/-- C8 (witness): a numeric `rotate` directive after a non-numeric first
one is ignored, applying the stop-at-first-line part of the theorem. -/
theorem c8_first_rotate_line_decides_witness :
    logrotatePassOfLines ["# weekly", "rotate notanumber", "rotate 60"]
      = logrotatePassOfLines ["# weekly", "rotate notanumber"] :=
  c8_first_rotate_line_decides.1 ["# weekly"] "rotate notanumber" ["rotate 60"]
    (by decide) (by decide)

/-- C9: scanning is deterministic — two oracles that agree on every fact
source and probe outcome produce identical finding sets (each check is a
pure function of the collected facts; no mark or text depends on
anything else). -/
theorem c9_scan_deterministic (o₁ o₂ : Oracle)
    (h1 : o₁.issue = o₂.issue) (h2 : o₁.interfaces = o₂.interfaces)
    (h3 : o₁.umaskOut = o₂.umaskOut) (h4 : o₁.passwd = o₂.passwd)
    (h5 : o₁.loginDefs = o₂.loginDefs) (h6 : o₁.systemAuth = o₂.systemAuth)
    (h7 : o₁.profile = o₂.profile) (h8 : ∀ p, o₁.bindOk p = o₂.bindOk p)
    (h9 : o₁.chkconfig = o₂.chkconfig) (h10 : o₁.sshdConfig = o₂.sshdConfig)
    (h11 : o₁.logrotate = o₂.logrotate)
    (h12 : ∀ s, o₁.serviceStatus s = o₂.serviceStatus s)
    (h13 : o₁.auditctl = o₂.auditctl) (h14 : o₁.iptables = o₂.iptables) :
    fullScan o₁ = fullScan o₂ := by
  have hb : o₁.bindOk = o₂.bindOk := funext h8
  have hsv : o₁.serviceStatus = o₂.serviceStatus := funext h12
  have he : o₁ = o₂ :=
    Oracle.ext h1 h2 h3 h4 h5 h6 h7 hb h9 h10 h11 hsv h13 h14
  rw [he]

/-- C9 (witness): the determinism theorem applied to the all-failure
oracle against itself. -/
theorem c9_scan_deterministic_witness : fullScan oracleNone = fullScan oracleNone :=
  c9_scan_deterministic oracleNone oracleNone rfl rfl rfl rfl rfl rfl rfl
    (fun _ => rfl) rfl rfl rfl (fun _ => rfl) rfl rfl

/-- C10: a `chkconfig --list` line that does not split into exactly 8
non-empty tab-separated fields parses to `None` and contributes nothing
to the Service cell — B15 (all per-service marks and the
minimum-services mark) and C15 are unchanged by its presence. -/
theorem c10_service_parse_skip (line : String)
    (h : (tabItems line).length ≠ 8) :
    parseService line = none
      ∧ ∀ pre post : List String,
          serviceCellOfLines (pre ++ line :: post) = serviceCellOfLines (pre ++ post) := by
  have hp : parseService line = none := by
    unfold parseService
    rw [if_neg h]
  refine ⟨hp, fun pre post => ?_⟩
  have hmp : serviceMpOfLines (pre ++ line :: post) = serviceMpOfLines (pre ++ post) := by
    unfold serviceMpOfLines
    rw [List.foldl_append, List.foldl_append]
    show List.foldl serviceStep (serviceStep (List.foldl serviceStep [] pre) line) post = _
    have hstep : serviceStep (List.foldl serviceStep [] pre) line
        = List.foldl serviceStep [] pre := by
      unfold serviceStep
      rw [hp]
    rw [hstep]
  unfold serviceCellOfLines
  rw [hmp]

/-- C10 (witness): a malformed line (one field) before a two-field line
is skipped, applying the theorem at a concrete input. -/
theorem c10_service_parse_skip_witness :
    parseService "bluetooth 0:关闭" = none
      ∧ serviceCellOfLines ["bluetooth 0:关闭", "x\ty"] = serviceCellOfLines ["x\ty"] := by
  have h := c10_service_parse_skip "bluetooth 0:关闭" (by decide)
  exact ⟨h.1, h.2 [] ["x\ty"]⟩

end SysGuard
